import Mathlib

/-!
# Shallow embedding of the rvoip_sip_client call-session orchestrator

This development embeds the state and transition logic of the softphone's
call-session core, faithfully translated from two layers of the source:

* `Mgr` — `src/sip_client.rs` (`SipClientManager`): the manager's internal
  cells (`current_call`, `registration_state`, `is_on_hook`), its event-loop
  arms (`start_event_loop`), and the command methods `make_call`, `hangup`,
  `toggle_hook`, `is_muted`.
* `App` — `src/components/app.rs` (`sip_coroutine`): the UI coroutine's state
  (`current_call_info` mirrored into the `current_call` signal, `hook_state`
  mirrored into `is_on_hook`, the `registration_state` and `error_message`
  signals, and the `app_state` screen), with one function per `select!` arm.

Engine interactions (the rvoip `SipClient`) are external; their results are
passed in as explicit oracle values, and the engine requests a step issues are
returned as an explicit list, so "the engine was invoked exactly once" is a
provable statement. Timestamps (`chrono::Utc::now()`) are modelled as an
abstract `Nat` passed to the event step.
-/

/-- Engine-native call states. The `From<SipCallState>` impl in
`src/sip_client.rs` matches this enumeration exhaustively (no wildcard arm),
so these seven variants are exactly the engine states visible to this code. -/
inductive SipCallState where
  | Initiating
  | Ringing
  | IncomingRinging
  | Connected
  | OnHold
  | Transferring
  | Terminated
deriving DecidableEq, Repr

/-- Local lifecycle states (`CallState` in `src/sip_client.rs`). -/
inductive CallState where
  | Idle
  | Registering
  | Registered
  | Calling
  | Ringing
  | Connected
  | OnHold
  | Transferring
  | Disconnected
  | Error (msg : String)
deriving DecidableEq, Repr

/-- `impl From<SipCallState> for CallState` (src/sip_client.rs lines 61-73). -/
def CallState.ofSip : SipCallState → CallState
  | .Initiating => .Calling
  | .Ringing => .Ringing
  | .IncomingRinging => .Ringing
  | .Connected => .Connected
  | .OnHold => .OnHold
  | .Transferring => .Transferring
  | .Terminated => .Disconnected

/-- `true` when the local state is the `Error` variant. -/
def CallState.isError : CallState → Bool
  | .Error _ => true
  | _ => false

/-- `true` when the local state is `Ringing` (the `c.state == CallState::Ringing`
test in app.rs ToggleHook arm). -/
def CallState.isRinging : CallState → Bool
  | .Ringing => true
  | _ => false

/-- All engine call states, for quantifier-free exhaustive checks. -/
def allSipStates : List SipCallState :=
  [.Initiating, .Ringing, .IncomingRinging, .Connected, .OnHold, .Transferring, .Terminated]

/-- Whether `CallState.ofSip` ever produces an `Error` value. -/
def ofSipHasErrorOutput : Bool :=
  allSipStates.any fun s => (CallState.ofSip s).isError

/-- `CallInfo` (src/sip_client.rs lines 75-84). `duration` and `connected_at`
are modelled as abstract `Nat` amounts/timestamps. -/
structure CallInfo where
  id : String
  remote_uri : String
  state : CallState
  duration : Option Nat
  is_incoming : Bool
  connected_at : Option Nat
  is_muted : Option Bool
deriving DecidableEq, Repr

/-- `ConnectionMode` (src/sip_client.rs lines 11-22). -/
inductive ConnectionMode where
  | Server (server_uri username password : String)
  | PeerToPeer (target_uri : String)
  | Receiver
deriving DecidableEq, Repr

/-- The events of `SipClientEvent` handled by the two event loops; both
loops route every other variant to a logging-only wildcard arm, which is
state-identical to not receiving an event at all. `id` is the call id
rendered as a string (`call.id.to_string()` in the source). -/
inductive SipClientEvent where
  | IncomingCall (id : String) (fromUri : String)
  | CallStateChanged (id : String) (new_state : SipCallState)
  | CallEnded (id : String)
  | CallOnHold (id : String)
  | CallResumed (id : String)
  | RegistrationStatusChanged (status : String)
deriving DecidableEq, Repr

/-- `SipCommand` (src/commands/sip_commands.rs). -/
inductive SipCommand where
  | Initialize (username password server_uri : String)
      (local_ip : Option String) (local_port : Nat)
  | MakeCall (target : String)
  | AnswerCall
  | Hangup
  | ToggleMute
  | Hold
  | Resume
  | Transfer (target : String)
  | ToggleHook
  | GetCallInfo
  | GetRegistrationState
deriving DecidableEq, Repr

/-- Requests a processing step issues against the engine / manager. Recording
them lets theorems count invocations ("exactly one reject is issued"). -/
inductive Req where
  | reject (id : String)
  | hangup (id : String)
  | placeCall (uri : String)
  | answer (id : String)
  | holdCall (id : String)
  | resumeCall (id : String)
  | toggleMuteReq (id : String)
  | clientStart
  | startEvents
deriving DecidableEq, Repr

namespace Mgr

/-- The manager's mutable cells (src/sip_client.rs lines 86-94): `current_call`,
`registration_state` and `is_on_hook`. The `client`/`event_sender`/`event_task`
handles are engine plumbing, modelled by the oracle parameters below. -/
structure MgrState where
  current_call : Option CallInfo
  registration_state : CallState
  is_on_hook : Bool
deriving DecidableEq, Repr

/-- `SipClientManager::new` (src/sip_client.rs lines 97-107): empty call,
`Idle` registration, on-hook. -/
def initState : MgrState :=
  { current_call := none, registration_state := .Idle, is_on_hook := true }

/-- The `"pending" / "active" / "failed" / _` match of the
`RegistrationStatusChanged` arm (src/sip_client.rs lines 274-282). -/
def regStatusToState (status : String) : CallState :=
  if status = "pending" then .Registering
  else if status = "active" then .Registered
  else if status = "failed" then .Error "Registration failed"
  else .Idle

/-- One iteration of the manager's event task (src/sip_client.rs lines
216-286). `now` stands for `chrono::Utc::now()`. In the off-hook
`IncomingCall` arm, `client_ref` is the `Some` client checked at
`start_event_loop` entry, so the reject is always issued. -/
def handleEvent (now : Nat) (s : MgrState) (e : SipClientEvent) :
    MgrState × List Req :=
  match e with
  | .IncomingCall id fromUri =>
    if s.is_on_hook then
      ({ s with current_call := some {
            id := id, remote_uri := fromUri, state := .Ringing, duration := none,
            is_incoming := true, connected_at := none, is_muted := some false } }, [])
    else
      (s, [.reject id])
  | .CallStateChanged id ns =>
    match s.current_call with
    | some info =>
      if info.id = id then
        ({ s with current_call := some {
              info with
              state := CallState.ofSip ns,
              connected_at :=
                if ns = SipCallState.Connected ∧ info.connected_at = none then
                  some now
                else info.connected_at } }, [])
      else (s, [])
    | none => (s, [])
  | .CallEnded id =>
    match s.current_call with
    | some info =>
      if info.id = id then ({ s with current_call := none }, []) else (s, [])
    | none => (s, [])
  | .CallOnHold id =>
    match s.current_call with
    | some info =>
      if info.id = id then
        ({ s with current_call := some { info with state := .OnHold } }, [])
      else (s, [])
    | none => (s, [])
  | .CallResumed id =>
    match s.current_call with
    | some info =>
      if info.id = id then
        ({ s with current_call := some { info with state := .Connected } }, [])
      else (s, [])
    | none => (s, [])
  | .RegistrationStatusChanged status =>
    ({ s with registration_state := regStatusToState status }, [])

/-- Packaging of a manager method's return value, error channel and the
engine requests it issued. -/
structure MgrResult (α : Type) where
  state : MgrState
  reqs : List Req
  result : Except String α

/-- The target-formatting block of `make_call` (src/sip_client.rs lines
306-343). `peerDomain` extracts everything after the first `@` of the
configured peer, matching `connected_peer[at_pos + 1..]`. -/
def peerDomain (connected_peer : String) : Option String :=
  match connected_peer.splitOn "@" with
  | [] => none
  | [_] => none
  | _ :: rest => some (String.intercalate "@" rest)

/-- URI formatting per connection mode (src/sip_client.rs lines 306-343). -/
def formatTarget (mode : ConnectionMode) (target : String) : String :=
  match mode with
  | .PeerToPeer connected_peer =>
    if target.contains '@' then target
    else if target.startsWith "sip:" then target
    else
      match peerDomain connected_peer with
      | some domain => "sip:" ++ target ++ "@" ++ domain
      | none => "sip:" ++ target
  | .Server _ _ _ =>
    if target.startsWith "sip:" then target else "sip:" ++ target
  | .Receiver =>
    if target.startsWith "sip:" then target else "sip:" ++ target

/-- `SipClientManager::make_call` (src/sip_client.rs lines 304-376).
`clientReady` is `self.client.is_some()`; `engCall` is the outcome of
`client.call(&formatted_uri)`, carrying on success the new call's id string
and the engine state read from `*call.state.read()`. Note: there is no
check of `current_call`; on success any existing record is overwritten. -/
def make_call (s : MgrState) (mode : ConnectionMode) (clientReady : Bool)
    (target : String) (engCall : Except String (String × SipCallState)) :
    MgrResult String :=
  if clientReady then
    match engCall with
    | .ok (cid, cst) =>
      { state := { s with current_call := some {
            id := cid, remote_uri := target, state := CallState.ofSip cst,
            duration := none, is_incoming := false, connected_at := none,
            is_muted := some false } },
        reqs := [.placeCall (formatTarget mode target)],
        result := .ok cid }
    | .error e =>
      { state := s, reqs := [.placeCall (formatTarget mode target)],
        result := .error e }
  else
    { state := s, reqs := [], result := .error "Client not initialized" }

/-- `SipClientManager::hangup` (src/sip_client.rs lines 378-418). `parse`
stands for the `Uuid::parse_str` / `CallId::parse_str` round-trip; `engHangup`
is the outcome of `client.hangup(&call_id)`. The record is cleared only in
the engine-success branch. -/
def hangup (s : MgrState) (clientReady : Bool) (parse : String → Option String)
    (engHangup : Except String Unit) : MgrResult Unit :=
  match s.current_call with
  | some call_info =>
    if clientReady then
      match parse call_info.id with
      | some cid =>
        match engHangup with
        | .ok _ =>
          { state := { s with current_call := none }, reqs := [.hangup cid],
            result := .ok () }
        | .error e =>
          { state := s, reqs := [.hangup cid], result := .error e }
      | none =>
        { state := s, reqs := [], result := .error "Invalid call ID format" }
    else
      { state := s, reqs := [], result := .error "Client not initialized" }
  | none =>
    { state := s, reqs := [], result := .error "No active call to hangup" }

/-- `SipClientManager::toggle_hook` (src/sip_client.rs lines 526-535):
flips `is_on_hook` and returns the new value. -/
def toggle_hook (s : MgrState) : MgrState × Bool :=
  ({ s with is_on_hook := !s.is_on_hook }, !s.is_on_hook)

/-- `SipClientManager::is_muted` (src/sip_client.rs lines 588-602).
`parse` stands for `CallId::parse_str`; `engIsMuted` for
`client.is_muted(&call_id)`, whose error is swallowed by `unwrap_or(false)`. -/
def is_muted (s : MgrState) (clientReady : Bool) (parse : String → Option String)
    (engIsMuted : String → Except String Bool) : Bool :=
  match s.current_call with
  | some call_info =>
    if clientReady then
      match parse call_info.id with
      | some cid =>
        match engIsMuted cid with
        | .ok b => b
        | .error _ => false
      | none => false
    else false
  | none => false

end Mgr

namespace App

/-- The UI screens (`AppState` enum in src/components/app.rs lines 10-15). -/
inductive Screen where
  | Registration
  | CallInterface
  | IncomingCallScreen (caller_id : String)
deriving DecidableEq, Repr

/-- State owned by the `sip_coroutine` and its signals (src/components/app.rs):
`call` is `current_call_info` (kept equal to the `current_call` signal —
the coroutine always writes both together), `onHook` is `hook_state`
(mirrored into `is_on_hook`), `reg` is the `registration_state` signal,
`errorMsg` the `error_message` signal, `screen` the `app_state` signal. -/
structure AppState where
  call : Option CallInfo
  onHook : Bool
  reg : CallState
  errorMsg : Option String
  screen : Screen
deriving DecidableEq, Repr

/-- The coroutine's starting state (app.rs lines 19-23, 56-57). -/
def initState : AppState :=
  { call := none, onHook := true, reg := .Idle, errorMsg := none,
    screen := .Registration }

/-- Outcomes of the `sip_client` manager calls one command arm can make
(each arm awaits at most one fallible manager call). -/
structure CmdOracle where
  initRes : Except String Unit
  startRes : Except String Unit
  makeCallRes : Except String String
  hangupRes : Except String Unit
  answerRes : Except String Unit
  toggleMuteRes : Except String Bool
  holdRes : Except String Unit
  resumeRes : Except String Unit

/-- Every manager call succeeding; `makeCallRes` yields call id "call-1",
`toggleMuteRes` reports muted. -/
def okOracle : CmdOracle :=
  { initRes := .ok (), startRes := .ok (), makeCallRes := .ok "call-1",
    hangupRes := .ok (), answerRes := .ok (), toggleMuteRes := .ok true,
    holdRes := .ok (), resumeRes := .ok () }

/-- One command arm of the coroutine's `select!` loop
(src/components/app.rs lines 66-248). -/
def stepCmd (o : CmdOracle) (s : AppState) (c : SipCommand) :
    AppState × List Req :=
  match c with
  | .Initialize _ _ _ _ _ =>
    match o.initRes with
    | .ok _ =>
      match o.startRes with
      | .ok _ =>
        ({ s with screen := .CallInterface }, [.clientStart, .startEvents])
      | .error e =>
        ({ s with errorMsg := some ("Failed to start: " ++ e) },
         [.clientStart, .startEvents])
    | .error e =>
      ({ s with errorMsg := some ("Failed to initialize: " ++ e) },
       [.clientStart])
  | .MakeCall target =>
    match o.makeCallRes with
    | .ok cid =>
      ({ s with call := some {
            id := cid, remote_uri := target, state := .Calling, duration := none,
            is_incoming := false, connected_at := none, is_muted := some false } },
       [.placeCall target])
    | .error e =>
      ({ s with errorMsg := some ("Failed to make call: " ++ e) },
       [.placeCall target])
  | .Hangup =>
    match s.call with
    | some call_info =>
      match o.hangupRes with
      | .ok _ => ({ s with call := none }, [.hangup call_info.id])
      | .error e =>
        ({ s with errorMsg := some ("Failed to hangup: " ++ e) },
         [.hangup call_info.id])
    | none => (s, [])
  | .AnswerCall =>
    match s.call with
    | some call_info =>
      if call_info.is_incoming then
        match o.answerRes with
        | .ok _ => (s, [.answer call_info.id])
        | .error e =>
          ({ s with errorMsg := some ("Failed to answer: " ++ e) },
           [.answer call_info.id])
      else (s, [])
    | none => (s, [])
  | .ToggleMute =>
    match s.call with
    | some call_info =>
      match o.toggleMuteRes with
      | .ok m =>
        ({ s with call := some { call_info with is_muted := some m } },
         [.toggleMuteReq call_info.id])
      | .error _ => (s, [.toggleMuteReq call_info.id])
    | none => (s, [])
  | .Hold =>
    match s.call with
    | some call_info =>
      match o.holdRes with
      | .ok _ =>
        ({ s with call := some { call_info with state := .OnHold } },
         [.holdCall call_info.id])
      | .error _ => (s, [.holdCall call_info.id])
    | none => (s, [])
  | .Resume =>
    match s.call with
    | some call_info =>
      match o.resumeRes with
      | .ok _ =>
        ({ s with call := some { call_info with state := .Connected } },
         [.resumeCall call_info.id])
      | .error _ => (s, [.resumeCall call_info.id])
    | none => (s, [])
  | .ToggleHook =>
    -- hook_state = !hook_state; the reject branch fires when the *new* value
    -- is off-hook, i.e. the old value was on-hook.
    let s1 := { s with onHook := !s.onHook }
    match s.onHook, s.call with
    | true, some call_info =>
      if call_info.is_incoming && call_info.state.isRinging then
        ({ s1 with call := none }, [.hangup call_info.id])
      else (s1, [])
    | true, none => (s1, [])
    | false, _ => (s1, [])
  | .Transfer _ => (s, [])
  | .GetCallInfo => (s, [])
  | .GetRegistrationState => (s, [])

/-- One event arm of the coroutine's `select!` loop
(src/components/app.rs lines 252-324). `now` stands for
`chrono::Utc::now()`. In the off-hook `IncomingCall` arm the coroutine calls
`sip_client.hangup` for the offered call and discards the result. -/
def stepEvt (now : Nat) (s : AppState) (e : SipClientEvent) :
    AppState × List Req :=
  match e with
  | .IncomingCall id fromUri =>
    if s.onHook then
      ({ s with
          call := some {
              id := id, remote_uri := fromUri, state := .Ringing,
              duration := none, is_incoming := true, connected_at := none,
              is_muted := some false },
          screen := .IncomingCallScreen fromUri }, [])
    else (s, [.hangup id])
  | .CallStateChanged id ns =>
    match s.call with
    | some call_info =>
      if call_info.id = id then
        ({ s with call := some {
              call_info with
              state := CallState.ofSip ns,
              connected_at :=
                if ns = SipCallState.Connected ∧ call_info.connected_at = none then
                  some now
                else call_info.connected_at } }, [])
      else (s, [])
    | none => (s, [])
  | .CallEnded id =>
    match s.call with
    | some call_info =>
      if call_info.id = id then ({ s with call := none }, []) else (s, [])
    | none => (s, [])
  | .CallOnHold id =>
    match s.call with
    | some call_info =>
      if call_info.id = id then
        ({ s with call := some { call_info with state := .OnHold } }, [])
      else (s, [])
    | none => (s, [])
  | .CallResumed id =>
    match s.call with
    | some call_info =>
      if call_info.id = id then
        ({ s with call := some { call_info with state := .Connected } }, [])
      else (s, [])
    | none => (s, [])
  | .RegistrationStatusChanged _ =>
    -- app.rs line 317 sets the signal to CallState::Idle for every status;
    -- the bound `status` is unused there.
    ({ s with reg := .Idle }, [])

end App

example : CallState.ofSip .IncomingRinging = .Ringing := rfl
example : ofSipHasErrorOutput = false := by decide

/-! ## Concrete fixtures used by witnesses and counterexamples -/

/-- A ringing incoming call record, as the IncomingCall event builds it. -/
def ringingIncoming : CallInfo :=
  { id := "c1", remote_uri := "sip:carol@10.0.0.2", state := .Ringing,
    duration := none, is_incoming := true, connected_at := none,
    is_muted := some false }

/-- A connected outgoing call record. -/
def connectedOutgoing : CallInfo :=
  { id := "c2", remote_uri := "sip:bob@10.0.0.3", state := .Connected,
    duration := none, is_incoming := false, connected_at := some 100,
    is_muted := some false }

/-- Idle coroutine state that has been toggled off-hook. -/
def offHookIdle : App.AppState := { App.initState with onHook := false }

/-- Coroutine state holding a connected outgoing call. -/
def busyApp : App.AppState :=
  { App.initState with call := some connectedOutgoing, screen := .CallInterface }

/-- Coroutine state offering a ringing incoming call. -/
def ringingApp : App.AppState :=
  { App.initState with
    call := some ringingIncoming,
    screen := .IncomingCallScreen "sip:carol@10.0.0.2" }

/-- Manager state holding a connected outgoing call. -/
def busyMgr : Mgr.MgrState :=
  { Mgr.initState with current_call := some connectedOutgoing }

/-- C1: processing IncomingCall while off-hook leaves the whole state (in
particular an empty or existing current-call cell) untouched and issues
exactly one engine reject/hangup request for that call id, in both the
manager event loop and the UI coroutine; while on-hook it creates the
Ringing, incoming, unmuted, unstamped CallRecord and issues no request. -/
theorem incomingCall_hook_policy (s : App.AppState) (m : Mgr.MgrState)
    (id fromUri : String) (now : Nat) :
    (s.onHook = false →
       App.stepEvt now s (.IncomingCall id fromUri) = (s, [.hangup id])) ∧
    (s.onHook = true →
       App.stepEvt now s (.IncomingCall id fromUri) =
         ({ s with
             call := some {
               id := id, remote_uri := fromUri, state := .Ringing,
               duration := none, is_incoming := true, connected_at := none,
               is_muted := some false },
             screen := .IncomingCallScreen fromUri }, [])) ∧
    (m.is_on_hook = false →
       Mgr.handleEvent now m (.IncomingCall id fromUri) = (m, [.reject id])) ∧
    (m.is_on_hook = true →
       Mgr.handleEvent now m (.IncomingCall id fromUri) =
         ({ m with
             current_call := some {
               id := id, remote_uri := fromUri, state := .Ringing,
               duration := none, is_incoming := true, connected_at := none,
               is_muted := some false } }, [])) := by
  refine ⟨?_, ?_, ?_, ?_⟩ <;> (intro h; simp [App.stepEvt, Mgr.handleEvent, h])

/-- Witness for C1 at a concrete off-hook state and a concrete on-hook state. -/
theorem incomingCall_hook_policy_check :
    App.stepEvt 0 offHookIdle (.IncomingCall "c9" "sip:carol@10.0.0.2") =
      (offHookIdle, [.hangup "c9"]) ∧
    Mgr.handleEvent 0 Mgr.initState (.IncomingCall "c1" "sip:carol@10.0.0.2") =
      ({ Mgr.initState with current_call := some ringingIncoming }, []) :=
  ⟨(incomingCall_hook_policy offHookIdle Mgr.initState "c9" "sip:carol@10.0.0.2" 0).1 rfl,
   (incomingCall_hook_policy offHookIdle Mgr.initState "c1" "sip:carol@10.0.0.2" 0).2.2.2 rfl⟩

/-- C5: ToggleHook always flips the hook state (in the coroutine and in the
manager's `toggle_hook`); when the flip goes to off-hook while the current
call is an incoming Ringing call, the coroutine additionally issues one
engine hangup for that call id and clears the CallRecord. -/
theorem toggleHook_flips_and_declines (s : App.AppState) (o : App.CmdOracle)
    (m : Mgr.MgrState) :
    (App.stepCmd o s .ToggleHook).1.onHook = !s.onHook ∧
    (∀ ci, s.onHook = true → s.call = some ci → ci.is_incoming = true →
       ci.state = .Ringing →
       (App.stepCmd o s .ToggleHook).1.call = none ∧
       (App.stepCmd o s .ToggleHook).2 = [.hangup ci.id]) ∧
    (Mgr.toggle_hook m).1.is_on_hook = !m.is_on_hook := by
  refine ⟨?_, ?_, by simp [Mgr.toggle_hook]⟩
  · cases hh : s.onHook <;> cases hc : s.call <;>
      (simp [App.stepCmd, hh, hc]; try (split <;> simp))
  · intro ci hh hc hinc hring
    simp [App.stepCmd, hh, hc, hinc, hring, CallState.isRinging]

/-- Witness for C5: toggling off-hook while a ringing incoming call is
offered rejects it and clears the record. -/
theorem toggleHook_flips_and_declines_check :
    (App.stepCmd App.okOracle ringingApp .ToggleHook).1.call = none ∧
    (App.stepCmd App.okOracle ringingApp .ToggleHook).2 = [.hangup "c1"] :=
  (toggleHook_flips_and_declines ringingApp App.okOracle Mgr.initState).2.1
    ringingIncoming rfl rfl rfl rfl

/-- C9: a CallStateChanged, CallEnded, CallOnHold or CallResumed event whose
id does not match the current CallRecord (in particular when there is no
current call) leaves the coroutine state and the manager state completely
unchanged — CallRecord, HookState and RegistrationState included — and
issues no engine request. -/
theorem mismatched_event_frame (s : App.AppState) (m : Mgr.MgrState)
    (id : String) (ns : SipCallState) (now : Nat)
    (hApp : ∀ ci, s.call = some ci → ci.id ≠ id)
    (hMgr : ∀ ci, m.current_call = some ci → ci.id ≠ id) :
    App.stepEvt now s (.CallStateChanged id ns) = (s, []) ∧
    App.stepEvt now s (.CallEnded id) = (s, []) ∧
    App.stepEvt now s (.CallOnHold id) = (s, []) ∧
    App.stepEvt now s (.CallResumed id) = (s, []) ∧
    Mgr.handleEvent now m (.CallStateChanged id ns) = (m, []) ∧
    Mgr.handleEvent now m (.CallEnded id) = (m, []) ∧
    Mgr.handleEvent now m (.CallOnHold id) = (m, []) ∧
    Mgr.handleEvent now m (.CallResumed id) = (m, []) := by
  refine ⟨?_, ?_, ?_, ?_, ?_, ?_, ?_, ?_⟩ <;>
    first
    | (cases hc : s.call with
       | none => simp [App.stepEvt, hc]
       | some ci => simp [App.stepEvt, hc, hApp ci hc])
    | (cases hm : m.current_call with
       | none => simp [Mgr.handleEvent, hm]
       | some ci => simp [Mgr.handleEvent, hm, hMgr ci hm])

/-- Witness for C9 at a concrete state with a live call and a stale id. -/
theorem mismatched_event_frame_check :
    App.stepEvt 7 busyApp (.CallEnded "zz") = (busyApp, []) :=
  (mismatched_event_frame busyApp busyMgr "zz" .Connected 7
    (by intro ci h
        simp [busyApp, App.initState] at h
        subst h
        decide)
    (by intro ci h
        simp [busyMgr, Mgr.initState] at h
        subst h
        decide)).2.1

/-- C10: `is_muted` is a total boolean query: it returns `false` whenever
there is no current call, the client is not ready, the stored id fails to
parse, or the engine query errors; it returns the engine's reported value
exactly when all of those succeed. -/
theorem is_muted_total (s : Mgr.MgrState) (clientReady : Bool)
    (parse : String → Option String) (eng : String → Except String Bool) :
    (s.current_call = none → Mgr.is_muted s clientReady parse eng = false) ∧
    (clientReady = false → Mgr.is_muted s clientReady parse eng = false) ∧
    (∀ ci, s.current_call = some ci → parse ci.id = none →
       Mgr.is_muted s clientReady parse eng = false) ∧
    (∀ ci cid e, s.current_call = some ci → parse ci.id = some cid →
       eng cid = .error e → Mgr.is_muted s clientReady parse eng = false) ∧
    (∀ ci cid b, s.current_call = some ci → clientReady = true →
       parse ci.id = some cid → eng cid = .ok b →
       Mgr.is_muted s clientReady parse eng = b) := by
  refine ⟨?_, ?_, ?_, ?_, ?_⟩
  · intro h; simp [Mgr.is_muted, h]
  · intro h; cases hc : s.current_call <;> simp [Mgr.is_muted, h, hc]
  · intro ci h hp; cases clientReady <;> simp [Mgr.is_muted, h, hp]
  · intro ci cid e h hp he; cases clientReady <;> simp [Mgr.is_muted, h, hp, he]
  · intro ci cid b h hr hp he; simp [Mgr.is_muted, h, hr, hp, he]

/-- Witness for C10: with a live call, ready client, parsing id and an
engine reporting muted, the query returns the engine's value. -/
theorem is_muted_total_check :
    Mgr.is_muted busyMgr true (fun i => some i) (fun _ => .ok true) = true :=
  (is_muted_total busyMgr true (fun i => some i) (fun _ => .ok true)).2.2.2.2
    connectedOutgoing "c2" true rfl rfl rfl rfl

/-- Counterexample to C2: with a live call and the engine hangup failing,
the coroutine keeps the CallRecord (and the manager's `hangup` keeps its
cell too) — the local clear is conditional on engine success, not
unconditional. -/
theorem hangup_failure_keeps_record :
    (App.stepCmd { App.okOracle with hangupRes := .error "timeout" }
        busyApp .Hangup).1.call = some connectedOutgoing ∧
    (Mgr.hangup busyMgr true (fun i => some i)
        (.error "timeout")).state.current_call = some connectedOutgoing :=
  ⟨rfl, rfl⟩

/-- C2 amended: processing Hangup with a live CallRecord issues one engine
hangup; the CallRecord is cleared exactly when the engine call succeeds, and
on engine failure it is left unchanged and an error message is recorded
(the manager's `hangup` behaves the same way, leaving its whole state
untouched on failure). -/
theorem hangup_clears_iff_engine_ok (s : App.AppState) (o : App.CmdOracle)
    (ci : CallInfo) (h : s.call = some ci) :
    (o.hangupRes = .ok () →
       App.stepCmd o s .Hangup = ({ s with call := none }, [.hangup ci.id])) ∧
    (∀ e, o.hangupRes = .error e →
       App.stepCmd o s .Hangup =
         ({ s with errorMsg := some ("Failed to hangup: " ++ e) },
          [.hangup ci.id])) ∧
    (∀ (m : Mgr.MgrState) (parse : String → Option String) (mi : CallInfo)
        (cid : String),
       m.current_call = some mi → parse mi.id = some cid →
       (Mgr.hangup m true parse (.ok ())).state.current_call = none ∧
       ∀ e, (Mgr.hangup m true parse (.error e)).state = m) := by
  refine ⟨?_, ?_, ?_⟩
  · intro hok; simp [App.stepCmd, h, hok]
  · intro e he; simp [App.stepCmd, h, he]
  · intro m parse mi cid hm hp
    exact ⟨by simp [Mgr.hangup, hm, hp], fun e => by simp [Mgr.hangup, hm, hp]⟩

/-- Witness for the amended C2: with the engine succeeding, the record is
cleared and one hangup request is issued. -/
theorem hangup_clears_iff_engine_ok_check :
    App.stepCmd App.okOracle busyApp .Hangup =
      ({ busyApp with call := none }, [.hangup "c2"]) :=
  (hangup_clears_iff_engine_ok busyApp App.okOracle connectedOutgoing rfl).1 rfl

/-- Counterexample to C3: with a call already live, MakeCall is not rejected:
the engine place-call is invoked, no error is recorded, and on success the
existing CallRecord is replaced by a fresh Calling record. -/
theorem makeCall_no_busy_guard :
    (App.stepCmd App.okOracle busyApp (.MakeCall "bob")).2 =
      [.placeCall "bob"] ∧
    (App.stepCmd App.okOracle busyApp (.MakeCall "bob")).1.errorMsg = none ∧
    (App.stepCmd App.okOracle busyApp (.MakeCall "bob")).1.call = some {
        id := "call-1", remote_uri := "bob", state := .Calling,
        duration := none, is_incoming := false, connected_at := none,
        is_muted := some false } ∧
    (App.stepCmd App.okOracle busyApp (.MakeCall "bob")).1.call ≠
      busyApp.call := by
  decide

/-- C3 amended: MakeCall is processed with no check of the current call:
the engine place-call is invoked exactly once for every state; on success
the CallRecord — including an existing one — is replaced by a fresh Calling
record; on failure the state is unchanged except for the surfaced error;
the manager's `make_call` likewise overwrites `current_call` on success. -/
theorem makeCall_always_invokes_engine (s : App.AppState) (o : App.CmdOracle)
    (target : String) :
    (App.stepCmd o s (.MakeCall target)).2 = [.placeCall target] ∧
    (∀ cid, o.makeCallRes = .ok cid →
       App.stepCmd o s (.MakeCall target) =
         ({ s with call := some {
              id := cid, remote_uri := target, state := .Calling,
              duration := none, is_incoming := false, connected_at := none,
              is_muted := some false } }, [.placeCall target])) ∧
    (∀ e, o.makeCallRes = .error e →
       App.stepCmd o s (.MakeCall target) =
         ({ s with errorMsg := some ("Failed to make call: " ++ e) },
          [.placeCall target])) ∧
    (∀ (m : Mgr.MgrState) (mode : ConnectionMode) (cid : String)
        (cst : SipCallState),
       (Mgr.make_call m mode true target (.ok (cid, cst))).state.current_call =
         some { id := cid, remote_uri := target, state := CallState.ofSip cst,
                duration := none, is_incoming := false, connected_at := none,
                is_muted := some false } ∧
       (Mgr.make_call m mode true target (.ok (cid, cst))).reqs =
         [.placeCall (Mgr.formatTarget mode target)]) := by
  refine ⟨?_, ?_, ?_, ?_⟩
  · cases h : o.makeCallRes <;> simp [App.stepCmd, h]
  · intro cid hok; simp [App.stepCmd, hok]
  · intro e he; simp [App.stepCmd, he]
  · intro m mode cid cst; exact ⟨rfl, rfl⟩

/-- Witness for the amended C3 at a busy concrete state with the engine
succeeding. -/
theorem makeCall_always_invokes_engine_check :
    App.stepCmd App.okOracle busyApp (.MakeCall "bob") =
      ({ busyApp with call := some {
           id := "call-1", remote_uri := "bob", state := .Calling,
           duration := none, is_incoming := false, connected_at := none,
           is_muted := some false } }, [.placeCall "bob"]) :=
  (makeCall_always_invokes_engine busyApp App.okOracle "bob").2.1 "call-1" rfl

/-- Counterexample to C4: from the initial on-hook idle state, a successful
MakeCall leaves the step with CallRecord.state = Calling while HookState is
still on-hook — no automatic off-hook forcing happens in that step. -/
theorem calling_while_on_hook :
    (App.stepCmd App.okOracle App.initState
        (.MakeCall "bob")).1.call.map CallInfo.state = some CallState.Calling ∧
    (App.stepCmd App.okOracle App.initState (.MakeCall "bob")).1.onHook = true := by
  decide

/-- C4 amended: the hook state is never changed automatically: no command
other than ToggleHook and no event changes the coroutine's hook state, and
no manager event-loop arm changes `is_on_hook`; hence an active-engagement
call state can coexist with on-hook. -/
theorem hook_only_changed_by_toggleHook (s : App.AppState) (o : App.CmdOracle)
    (c : SipCommand) (m : Mgr.MgrState) (e : SipClientEvent) (now : Nat)
    (hc : c ≠ SipCommand.ToggleHook) :
    (App.stepCmd o s c).1.onHook = s.onHook ∧
    (App.stepEvt now s e).1.onHook = s.onHook ∧
    (Mgr.handleEvent now m e).1.is_on_hook = m.is_on_hook := by
  refine ⟨?_, ?_, ?_⟩
  · cases c <;>
      first
        | exact absurd rfl hc
        | (simp only [App.stepCmd]
           repeat' split
           all_goals rfl)
  · cases e <;>
      (simp only [App.stepEvt]
       repeat' split
       all_goals rfl)
  · cases e <;>
      (simp only [Mgr.handleEvent]
       repeat' split
       all_goals rfl)

/-- Witness for the amended C4: a successful MakeCall and a CallOnHold event
both leave the hook state untouched. -/
theorem hook_only_changed_by_toggleHook_check :
    (App.stepCmd App.okOracle App.initState (.MakeCall "bob")).1.onHook = true ∧
    (App.stepEvt 3 busyApp (.CallOnHold "c2")).1.onHook = true :=
  ⟨(hook_only_changed_by_toggleHook App.initState App.okOracle (.MakeCall "bob")
      Mgr.initState (.CallOnHold "c2") 3 (by decide)).1,
   (hook_only_changed_by_toggleHook busyApp App.okOracle (.MakeCall "bob")
      Mgr.initState (.CallOnHold "c2") 3 (by decide)).2.1⟩

/-- Counterexample to C6: the code's engine-to-local mapping handles the
engine states OnHold and Transferring identically (values outside the
claimed table), and no engine state maps to an error local state, so the
claimed "Failed/Cancelled → Disconnected-with-error" rows have no instance
in the code's exhaustively matched engine enumeration. -/
theorem ofSip_differs_from_claimed_table :
    CallState.ofSip SipCallState.OnHold = CallState.OnHold ∧
    CallState.ofSip SipCallState.Transferring = CallState.Transferring ∧
    ofSipHasErrorOutput = false := by
  decide

/-- C6 amended: the engine enumeration has exactly the seven variants
matched in the code; the mapping is Initiating→Calling, Ringing→Ringing,
IncomingRinging→Ringing, Connected→Connected, OnHold→OnHold,
Transferring→Transferring, Terminated→Disconnected, and never an error
state; when a CallStateChanged event's id matches the live CallRecord, both
layers overwrite CallRecord.state with the mapped value and stamp
connected_at on a Connected transition exactly when it is not already set. -/
theorem callStateChanged_applies_mapping :
    (CallState.ofSip .Initiating = .Calling ∧
     CallState.ofSip .Ringing = .Ringing ∧
     CallState.ofSip .IncomingRinging = .Ringing ∧
     CallState.ofSip .Connected = .Connected ∧
     CallState.ofSip .OnHold = .OnHold ∧
     CallState.ofSip .Transferring = .Transferring ∧
     CallState.ofSip .Terminated = .Disconnected ∧
     ofSipHasErrorOutput = false) ∧
    (∀ (now : Nat) (s : App.AppState) (ci : CallInfo) (ns : SipCallState),
       s.call = some ci →
       App.stepEvt now s (.CallStateChanged ci.id ns) =
         ({ s with call := some {
              ci with
              state := CallState.ofSip ns,
              connected_at :=
                if ns = SipCallState.Connected ∧ ci.connected_at = none then
                  some now
                else ci.connected_at } }, [])) ∧
    (∀ (now : Nat) (m : Mgr.MgrState) (ci : CallInfo) (ns : SipCallState),
       m.current_call = some ci →
       Mgr.handleEvent now m (.CallStateChanged ci.id ns) =
         ({ m with current_call := some {
              ci with
              state := CallState.ofSip ns,
              connected_at :=
                if ns = SipCallState.Connected ∧ ci.connected_at = none then
                  some now
                else ci.connected_at } }, [])) := by
  refine ⟨by decide, ?_, ?_⟩
  · intro now s ci ns h; simp [App.stepEvt, h]
  · intro now m ci ns h; simp [Mgr.handleEvent, h]

/-- Witness for the amended C6: a first Connected transition for the live
ringing call maps to Connected and stamps connected_at. -/
theorem callStateChanged_applies_mapping_check :
    App.stepEvt 42 ringingApp (.CallStateChanged "c1" .Connected) =
      ({ ringingApp with call := some {
           ringingIncoming with state := .Connected, connected_at := some 42 } },
       []) := by
  have h := callStateChanged_applies_mapping.2.1 42 ringingApp ringingIncoming
    .Connected rfl
  simpa using h

/-- C7: the manager's status mapping does send "active" to Registered
(src/sip_client.rs lines 274-282), but the UI coroutine's
RegistrationStatusChanged arm (src/components/app.rs line 317) sets the
published registration-state signal to Idle for every status, so after a
successful ServerMode Initialize followed by RegistrationStatusChanged
"active" the published RegistrationState is Idle, not Registered. -/
theorem registration_active_published_idle :
    Mgr.regStatusToState "active" = CallState.Registered ∧
    (Mgr.handleEvent 0 Mgr.initState
        (.RegistrationStatusChanged "active")).1.registration_state =
      CallState.Registered ∧
    (App.stepEvt 0
        ((App.stepCmd App.okOracle App.initState
            (.Initialize "alice" "pw" "sip:127.0.0.1:5060" none 5060)).1)
        (.RegistrationStatusChanged "active")).1.reg = CallState.Idle := by
  decide

/-- C8: with a live CallRecord, a matching CallOnHold event sets its state
to OnHold and a matching CallResumed event sets it to Connected, in both
layers; consequently a Hold command, its CallOnHold confirmation, a Resume
command and its CallResumed confirmation leave CallRecord.state exactly
Connected (never OnHold), whatever the engine replied to the two commands. -/
theorem hold_resume_roundtrip (s : App.AppState) (ci : CallInfo)
    (m : Mgr.MgrState) (mi : CallInfo) (o1 o2 : App.CmdOracle) (n1 n2 : Nat)
    (hs : s.call = some ci) (hm : m.current_call = some mi) :
    (App.stepEvt n1 s (.CallOnHold ci.id)).1.call =
      some { ci with state := .OnHold } ∧
    (App.stepEvt n1 s (.CallResumed ci.id)).1.call =
      some { ci with state := .Connected } ∧
    (Mgr.handleEvent n1 m (.CallOnHold mi.id)).1.current_call =
      some { mi with state := .OnHold } ∧
    (Mgr.handleEvent n1 m (.CallResumed mi.id)).1.current_call =
      some { mi with state := .Connected } ∧
    (App.stepEvt n2
        ((App.stepCmd o2
            ((App.stepEvt n1 ((App.stepCmd o1 s .Hold).1)
                (.CallOnHold ci.id)).1)
            .Resume).1)
        (.CallResumed ci.id)).1.call.map CallInfo.state =
      some CallState.Connected := by
  refine ⟨by simp [App.stepEvt, hs], by simp [App.stepEvt, hs],
          by simp [Mgr.handleEvent, hm], by simp [Mgr.handleEvent, hm], ?_⟩
  cases h1 : o1.holdRes <;> cases h2 : o2.resumeRes <;>
    simp [App.stepCmd, App.stepEvt, hs, h1, h2]

/-- Witness for C8 at a concrete connected call with the engine accepting
both the hold and the resume. -/
theorem hold_resume_roundtrip_check :
    (App.stepEvt 9
        ((App.stepCmd App.okOracle
            ((App.stepEvt 8 ((App.stepCmd App.okOracle busyApp .Hold).1)
                (.CallOnHold "c2")).1)
            .Resume).1)
        (.CallResumed "c2")).1.call.map CallInfo.state =
      some CallState.Connected :=
  (hold_resume_roundtrip busyApp connectedOutgoing busyMgr connectedOutgoing
    App.okOracle App.okOracle 8 9 rfl rfl).2.2.2.2
